import Mathlib

/-!
Verification of the PWD-Tools repository (Streamlit business tooling:
bill preparation, EMD refunds, Excel import/export, PDF export, SQLite store).

Shallow embedding conventions:
* Python floats are modelled as rationals (ℚ); machine floating point is not
  load-bearing for any of the verified formulas.
* Python dicts passed as records (`bill_data`, `emd_data`, ...) are modelled
  as structures of `Option`-valued fields; `d.get(k, v)` becomes `Option.getD`.
* The SQLite database file is modelled as an explicit `DBState` value; every
  `DatabaseManager` method becomes a function from `DBState` (plus inputs) to
  its result and the successor `DBState`.  A raised Python exception is
  modelled as `Except.error`; the `with sqlite3.connect(...)` context manager
  commits on success and rolls back to the entry state on an exception.
* SQL `LIKE` is modelled with SQLite's default semantics: `%`/`_` wildcards,
  no escape character, ASCII-only case folding.
-/

/-! ## Computation routines -/

/-- Modelled from the spec: the deposit-interest routine of the EMD refund
tool (the `tools/financial/emd_refund.py` module is not part of the sources;
only its PDF rendering in `pdf_generator.create_emd_refund_pdf` is).
`daysHeld = refundDate − depositDate` in whole days, clamped to zero if
negative. -/
def daysHeld (daysRaw : Int) : Int :=
  max daysRaw 0

/-- Modelled from the spec: simple interest on a deposit,
`principal × annualRate/100 × days/365`. -/
def emdInterest (principal rate : ℚ) (days : Int) : ℚ :=
  principal * rate / 100 * days / 365

/-- Modelled from the spec: `refund = principal + interest` over the clamped
day count. -/
def emdRefund (principal rate : ℚ) (daysRaw : Int) : ℚ :=
  principal + emdInterest principal rate (daysHeld daysRaw)

/-- Rounding to two decimal places, as displayed by the `"{:,.2f}"` currency
formatting of the exporters. -/
def round2 (q : ℚ) : ℚ :=
  (round (q * 100) : ℚ) / 100

/-- A deduction as described by the spec's deduction-breakdown routine:
a type tag, an optional fixed amount, a percentage rate and a statutory
flag. -/
structure DeductionSpec where
  dtype : String
  fixedAmount : Option ℚ
  rate : ℚ
  statutory : Bool
deriving DecidableEq

/-- Modelled from the spec: deduction `amount = fixed value if given else
rate% × base` (the deductions-table tool computing this is not part of the
sources; `excel_handler.create_bill_excel` consumes the resulting amounts). -/
def deductionAmount (base : ℚ) (d : DeductionSpec) : ℚ :=
  match d.fixedAmount with
  | some a => a
  | none => d.rate / 100 * base

/-- A deduction dict as consumed by `excel_handler.create_bill_excel` and
`pdf_generator.create_bill_pdf`: all keys optional. -/
structure DeductionDict where
  dtype : Option String
  amount : Option ℚ
  rate : Option ℚ
  statutory : Option Bool
deriving DecidableEq

/-- `sum([d.get('amount', 0) for d in bill_data.get('deductions', [])])` from
`excel_handler.create_bill_excel` (and identically in
`pdf_generator.create_bill_pdf`). -/
def totalDeductions (ds : List DeductionDict) : ℚ :=
  (ds.map (fun d => d.amount.getD 0)).sum

/-- `bill_data.get('bill_amount', 0) - sum([d.get('amount', 0) ...])` from
`excel_handler.create_bill_excel`. -/
def netAmount (billAmount : ℚ) (ds : List DeductionDict) : ℚ :=
  billAmount - totalDeductions ds

/-- The deduction dict produced for a spec-level deduction whose amount was
computed by the deduction-breakdown routine against `base`. -/
def toDeductionDict (base : ℚ) (d : DeductionSpec) : DeductionDict :=
  { dtype := some d.dtype
    amount := some (deductionAmount base d)
    rate := some d.rate
    statutory := some d.statutory }

/-- The two deductions of the spec's bill scenario: a fixed 5000 deduction and
a 5% statutory-free deduction. -/
def scenarioDeductions : List DeductionSpec :=
  [ { dtype := "Income Tax", fixedAmount := some 5000, rate := 1, statutory := true }
  , { dtype := "Security Deposit", fixedAmount := none, rate := 5, statutory := false } ]

/-- C1: for non-negative day counts the interest is
`P × R/100 × D/365` and the refund adds it to the principal; for a negative
day count the refund clamps to exactly `P`; on the scenario
`P = 50000, R = 6, D = 31` the interest rounds to `254.79` and the refund to
`50254.79`. -/
theorem emd_refund_formula :
    (∀ P R : ℚ, ∀ D : Int, 0 ≤ D →
      emdInterest P R D = P * R / 100 * D / 365 ∧
      emdRefund P R D = P + emdInterest P R D) ∧
    (∀ P R : ℚ, ∀ D : Int, D < 0 → emdRefund P R D = P) ∧
    round2 (emdInterest 50000 6 31) = 254.79 ∧
    round2 (emdRefund 50000 6 31) = 50254.79 := by
  refine ⟨?_, ?_, ?_, ?_⟩
  · intro P R D hD
    have h : daysHeld D = D := by
      simp [daysHeld, max_eq_left_iff.mpr hD]
    exact ⟨rfl, by rw [emdRefund, h]⟩
  · intro P R D hD
    have h : daysHeld D = 0 := by
      simp [daysHeld]
      omega
    rw [emdRefund, h]
    simp [emdInterest]
  · rw [round2, emdInterest, round_eq]
    norm_num [Int.floor_eq_iff]
  · rw [round2, emdRefund, emdInterest, daysHeld, round_eq]
    norm_num [Int.floor_eq_iff]

/-- C1 witness: the theorem instantiated at `P = 50000, R = 6` with `D = 31`
and `D = -10`. -/
theorem emd_refund_formula_witness :
    (emdInterest 50000 6 31 = 50000 * 6 / 100 * 31 / 365 ∧
      emdRefund 50000 6 31 = 50000 + emdInterest 50000 6 31) ∧
    emdRefund 50000 6 (-10) = 50000 :=
  ⟨emd_refund_formula.1 50000 6 31 (by decide),
    emd_refund_formula.2.1 50000 6 (-10) (by decide)⟩

/-- C2: each deduction's amount is its fixed value if given, otherwise
`rate% × base`; the exporter's total is the sum of those amounts; net is base
minus total; the empty list totals 0; and the scenario
`base = 500000, [fixed 5000, 5%]` yields total 30000 and net 470000. -/
theorem deduction_breakdown_total_net :
    (∀ base : ℚ, ∀ ds : List DeductionSpec,
      totalDeductions (ds.map (toDeductionDict base)) =
        (ds.map (deductionAmount base)).sum ∧
      netAmount base (ds.map (toDeductionDict base)) =
        base - (ds.map (deductionAmount base)).sum) ∧
    (∀ d : DeductionSpec, ∀ base : ℚ,
      deductionAmount base d = d.fixedAmount.getD (d.rate / 100 * base)) ∧
    totalDeductions [] = 0 ∧
    (scenarioDeductions.map (deductionAmount 500000)) = [5000, 25000] ∧
    totalDeductions (scenarioDeductions.map (toDeductionDict 500000)) = 30000 ∧
    netAmount 500000 (scenarioDeductions.map (toDeductionDict 500000)) = 470000 := by
  have hmap : ∀ (base : ℚ) (ds : List DeductionSpec),
      totalDeductions (ds.map (toDeductionDict base)) =
        (ds.map (deductionAmount base)).sum := by
    intro base ds
    induction ds with
    | nil => rfl
    | cons d rest ih =>
      simp only [List.map_cons, totalDeductions, List.sum_cons] at *
      rw [← ih]
      rfl
  refine ⟨fun base ds => ⟨hmap base ds, ?_⟩, ?_, rfl, ?_, ?_, ?_⟩
  · rw [netAmount, hmap base ds]
  · intro d base
    cases h : d.fixedAmount <;> simp [deductionAmount, h]
  · simp [scenarioDeductions, deductionAmount]
    norm_num
  · rw [hmap]
    simp [scenarioDeductions, deductionAmount]
    norm_num
  · rw [netAmount, hmap]
    simp [scenarioDeductions, deductionAmount]
    norm_num

/-! ## SQL `LIKE` (SQLite default semantics)

`DatabaseManager.search_records` builds `WHERE {column} LIKE ?` conditions
with parameter `f"%{search_term}%"`.  SQLite's default `LIKE` (no
`case_sensitive_like` pragma is ever set, no `ESCAPE` clause) treats `%` as
"any sequence", `_` as "any single character", and compares the remaining
characters case-insensitively for the ASCII range `A`-`Z`. -/

/-- ASCII case folding as performed by SQLite's default `LIKE`. -/
def foldChar (c : Char) : Char :=
  if 'A' ≤ c ∧ c ≤ 'Z' then Char.ofNat (c.toNat + 32) else c

/-- SQLite `LIKE` pattern matching: first argument the pattern, second the
candidate string. -/
def likeMatch : List Char → List Char → Bool
  | [], s => s.isEmpty
  | p :: ps, s =>
    if p = '%' then s.tails.any (fun s' => likeMatch ps s')
    else
      match s with
      | [] => false
      | c :: s' => (p == '_' || foldChar p == foldChar c) && likeMatch ps s'

/-- The pattern `f"%{search_term}%"` built by `search_records`. -/
def likePattern (term : String) : List Char :=
  '%' :: (term.data ++ ['%'])

/-- A `LIKE` condition against a nullable column: SQL `NULL LIKE p` is `NULL`,
hence not a match. -/
def columnLike (term : String) (v : Option String) : Bool :=
  match v with
  | none => false
  | some s => likeMatch (likePattern term) s.data

/-- A search term is wildcard-free when it contains neither `%` nor `_`. -/
def noWildcards (t : String) : Prop :=
  ∀ c ∈ t.data, c ≠ '%' ∧ c ≠ '_'

theorem likeMatch_wildcard (ps s : List Char) :
    likeMatch ('%' :: ps) s = true ↔ ∃ s', s' <:+ s ∧ likeMatch ps s' = true := by
  simp [likeMatch, List.any_eq_true, List.mem_tails]

theorem likeMatch_body (t : List Char) (h : ∀ c ∈ t, c ≠ '%' ∧ c ≠ '_') :
    ∀ s : List Char,
      (likeMatch (t ++ ['%']) s = true ↔ t.map foldChar <+: s.map foldChar) := by
  induction t with
  | nil =>
    intro s
    simp only [List.nil_append, List.map_nil]
    rw [show ('%' :: ([] : List Char)) = ['%'] from rfl] at *
    constructor
    · intro _
      exact ⟨s.map foldChar, rfl⟩
    · intro _
      rw [likeMatch_wildcard]
      exact ⟨[], ⟨s, by simp⟩, rfl⟩
  | cons c t ih =>
    intro s
    have hc := h c (List.mem_cons_self c t)
    have ht : ∀ x ∈ t, x ≠ '%' ∧ x ≠ '_' := fun x hx => h x (List.mem_cons_of_mem c hx)
    cases s with
    | nil =>
      simp [likeMatch, hc.1]
    | cons d s' =>
      have hne : (c == '_') = false := by
        exact beq_eq_false_iff_ne.mpr hc.2
      simp only [List.cons_append, List.map_cons, likeMatch, if_neg hc.1, hne,
        Bool.false_or, Bool.and_eq_true, beq_iff_eq, List.cons_prefix_cons]
      exact and_congr_right fun _ => ih ht s'

theorem suffix_map_iff {α β : Type} (f : α → β) (l : List α) (u : List β) :
    u <:+ l.map f ↔ ∃ s', s' <:+ l ∧ u = s'.map f := by
  constructor
  · rintro ⟨v, hv⟩
    obtain ⟨l₁, l₂, hl, _, h2⟩ := List.map_eq_append_iff.mp hv.symm
    exact ⟨l₂, ⟨l₁, hl.symm⟩, h2.symm⟩
  · rintro ⟨s', hs', rfl⟩
    exact hs'.map f

theorem likeMatch_full (t : List Char) (h : ∀ c ∈ t, c ≠ '%' ∧ c ≠ '_')
    (s : List Char) :
    likeMatch ('%' :: (t ++ ['%'])) s = true ↔
      t.map foldChar <:+: s.map foldChar := by
  rw [likeMatch_wildcard]
  constructor
  · rintro ⟨s', hsuf, hm⟩
    rw [likeMatch_body t h s'] at hm
    exact List.infix_iff_prefix_suffix.mpr ⟨s'.map foldChar, hm, hsuf.map _⟩
  · intro hinf
    obtain ⟨u, hpre, hsuf⟩ := List.infix_iff_prefix_suffix.mp hinf
    obtain ⟨s', hs', rfl⟩ := (suffix_map_iff foldChar s u).mp hsuf
    exact ⟨s', hs', (likeMatch_body t h s').mpr hpre⟩

/-! ## Ledger Store (`utils/database.py`)

One list per table, in insertion order; `id` columns are
`INTEGER PRIMARY KEY AUTOINCREMENT` counters, `created_at` is a logical clock
standing for `CURRENT_TIMESTAMP` (strictly increasing across inserts). -/

/-- A row of the `bills` table (`bill_number` is `NOT NULL`; `status` is
always set because `save_bill` defaults it to `'Active'`). -/
structure BillRow where
  id : Nat
  bill_number : String
  bill_date : Option String
  contractor_name : Option String
  project_name : Option String
  bill_amount : Option ℚ
  status : String
  created_at : Nat
deriving DecidableEq

/-- A row of the `deductions` table as inserted by `save_bill` (there,
`bill_id`, `deduction_type` and `amount` are always bound). -/
structure DeductionRow where
  id : Nat
  bill_id : Nat
  deduction_type : String
  amount : ℚ
  rate : ℚ
  is_statutory : Bool
  created_at : Nat
deriving DecidableEq

/-- A row of the `emd_refunds` table (`tender_number` is `NOT NULL`; `status`
defaults to `'Processed'`). -/
structure EmdRow where
  id : Nat
  tender_number : String
  contractor_name : Option String
  emd_amount : Option ℚ
  deposit_date : Option String
  refund_date : Option String
  interest_rate : Option ℚ
  refund_amount : Option ℚ
  status : String
  created_at : Nat
deriving DecidableEq

/-- A row of the `projects` table (`project_name` is `NOT NULL`; `status`
defaults to `'Active'`). -/
structure ProjectRow where
  id : Nat
  project_name : String
  project_code : Option String
  contractor_name : Option String
  agreement_amount : Option ℚ
  start_date : Option String
  completion_date : Option String
  status : String
  created_at : Nat
deriving DecidableEq

/-- The database file created by `DatabaseManager.init_database`.  The
`settings` table is never written by the modelled operations and is omitted. -/
structure DBState where
  bills : List BillRow
  deductions : List DeductionRow
  emd_refunds : List EmdRow
  projects : List ProjectRow
  nextBillId : Nat
  nextDeductionId : Nat
  nextEmdId : Nat
  nextProjectId : Nat
  clock : Nat
deriving DecidableEq

/-- A fresh database, as left by `init_database` on a new file. -/
def emptyDB : DBState :=
  { bills := [], deductions := [], emd_refunds := [], projects := []
    nextBillId := 1, nextDeductionId := 1, nextEmdId := 1, nextProjectId := 1
    clock := 0 }

/-- One entry of `bill_data['deductions']`: `deduction['type']` and
`deduction['amount']` are mandatory lookups (a missing key raises `KeyError`),
`rate` and `statutory` use `.get` defaults. -/
structure DeductionInput where
  dtype : Option String
  amount : Option ℚ
  rate : Option ℚ
  statutory : Option Bool
deriving DecidableEq

/-- The `bill_data` dict accepted by `save_bill`; every field is read with
`.get`, so all are optional. -/
structure BillInput where
  bill_number : Option String
  bill_date : Option String
  contractor_name : Option String
  project_name : Option String
  bill_amount : Option ℚ
  status : Option String
  deductions : Option (List DeductionInput)
deriving DecidableEq

/-- The `emd_data` dict accepted by `save_emd_refund`. -/
structure EmdInput where
  tender_number : Option String
  contractor_name : Option String
  emd_amount : Option ℚ
  deposit_date : Option String
  refund_date : Option String
  interest_rate : Option ℚ
  refund_amount : Option ℚ
  status : Option String
deriving DecidableEq

/-- The `project_data` dict accepted by `save_project`. -/
structure ProjectInput where
  project_name : Option String
  project_code : Option String
  contractor_name : Option String
  agreement_amount : Option ℚ
  start_date : Option String
  completion_date : Option String
  status : Option String
deriving DecidableEq

/-- The loop over `bill_data['deductions']` inside `save_bill`: each entry is
inserted with `bill_id = lastrowid`; a missing `'type'` or `'amount'` key
raises `KeyError`, aborting the (still uncommitted) transaction. -/
def insertDeductions (billId : Nat) : List DeductionInput → DBState → Except String DBState
  | [], st => .ok st
  | d :: rest, st =>
    match d.dtype, d.amount with
    | some t, some a =>
      let row : DeductionRow :=
        { id := st.nextDeductionId, bill_id := billId, deduction_type := t
          amount := a, rate := d.rate.getD 0, is_statutory := d.statutory.getD false
          created_at := st.clock }
      insertDeductions billId rest
        { st with
          deductions := st.deductions ++ [row]
          nextDeductionId := st.nextDeductionId + 1
          clock := st.clock + 1 }
    | none, _ => .error "KeyError: type"
    | _, none => .error "KeyError: amount"

/-- The bill row bound by the `INSERT INTO bills ...` of `save_bill` when
`bill_data.get('bill_number')` is the non-null value `bn`. -/
def billInsertRow (st : DBState) (b : BillInput) (bn : String) : BillRow :=
  { id := st.nextBillId, bill_number := bn, bill_date := b.bill_date
    contractor_name := b.contractor_name, project_name := b.project_name
    bill_amount := b.bill_amount, status := b.status.getD "Active"
    created_at := st.clock }

/-- The (uncommitted) connection state right after the bill insert of
`save_bill`. -/
def billInsertState (st : DBState) (b : BillInput) (bn : String) : DBState :=
  { st with
    bills := st.bills ++ [billInsertRow st b bn]
    nextBillId := st.nextBillId + 1
    clock := st.clock + 1 }

/-- `DatabaseManager.save_bill`: inserts the bill row, then each deduction
row, and commits; a `NULL` `bill_number` violates the schema's `NOT NULL`
constraint, and any exception makes the `with sqlite3.connect(...)` context
manager roll back to the entry state.  Returns the `lastrowid` of the bill on
success, paired with the database state after the call. -/
def saveBill (st : DBState) (b : BillInput) : Except String Nat × DBState :=
  match b.bill_number with
  | none => (.error "IntegrityError: NOT NULL constraint failed: bills.bill_number", st)
  | some bn =>
    match insertDeductions st.nextBillId (b.deductions.getD []) (billInsertState st b bn) with
    | .ok st2 => (.ok st.nextBillId, st2)
    | .error e => (.error e, st)

/-- `DatabaseManager.save_emd_refund`. -/
def saveEmdRefund (st : DBState) (e : EmdInput) : Except String Nat × DBState :=
  match e.tender_number with
  | none => (.error "IntegrityError: NOT NULL constraint failed: emd_refunds.tender_number", st)
  | some tn =>
    let rowId := st.nextEmdId
    let row : EmdRow :=
      { id := rowId, tender_number := tn, contractor_name := e.contractor_name
        emd_amount := e.emd_amount, deposit_date := e.deposit_date
        refund_date := e.refund_date, interest_rate := e.interest_rate
        refund_amount := e.refund_amount, status := e.status.getD "Processed"
        created_at := st.clock }
    (.ok rowId,
      { st with
        emd_refunds := st.emd_refunds ++ [row]
        nextEmdId := rowId + 1
        clock := st.clock + 1 })

/-- `DatabaseManager.save_project`. -/
def saveProject (st : DBState) (p : ProjectInput) : Except String Nat × DBState :=
  match p.project_name with
  | none => (.error "IntegrityError: NOT NULL constraint failed: projects.project_name", st)
  | some pn =>
    let rowId := st.nextProjectId
    let row : ProjectRow :=
      { id := rowId, project_name := pn, project_code := p.project_code
        contractor_name := p.contractor_name, agreement_amount := p.agreement_amount
        start_date := p.start_date, completion_date := p.completion_date
        status := p.status.getD "Active", created_at := st.clock }
    (.ok rowId,
      { st with
        projects := st.projects ++ [row]
        nextProjectId := rowId + 1
        clock := st.clock + 1 })

/-- `ORDER BY created_at DESC` comparison (newest first). -/
def newestFirstBill (a b : BillRow) : Bool :=
  decide (b.created_at ≤ a.created_at)

/-- `ORDER BY created_at DESC` comparison for EMD rows. -/
def newestFirstEmd (a b : EmdRow) : Bool :=
  decide (b.created_at ≤ a.created_at)

/-- `ORDER BY created_at DESC` comparison for project rows. -/
def newestFirstProject (a b : ProjectRow) : Bool :=
  decide (b.created_at ≤ a.created_at)

/-- `DatabaseManager.get_bills`: `SELECT * FROM bills ORDER BY created_at
DESC`, appending `LIMIT {limit}` only when `limit` is truthy — Python's
`if limit:` treats `None` and `0` alike. -/
def getBills (st : DBState) (limit : Option Nat) : List BillRow :=
  let rows := st.bills.mergeSort newestFirstBill
  match limit with
  | none => rows
  | some l => if l = 0 then rows else rows.take l

/-- `DatabaseManager.get_emd_refunds`. -/
def getEmdRefunds (st : DBState) (limit : Option Nat) : List EmdRow :=
  let rows := st.emd_refunds.mergeSort newestFirstEmd
  match limit with
  | none => rows
  | some l => if l = 0 then rows else rows.take l

/-- `DatabaseManager.get_projects`. -/
def getProjects (st : DBState) (limit : Option Nat) : List ProjectRow :=
  let rows := st.projects.mergeSort newestFirstProject
  match limit with
  | none => rows
  | some l => if l = 0 then rows else rows.take l

/-- The tables `delete_record` can address. -/
inductive TableName
  | bills
  | deductions
  | emd_refunds
  | projects
deriving DecidableEq

/-- `DatabaseManager.delete_record`: `DELETE FROM {table} WHERE id = ?`,
returning `cursor.rowcount > 0`.  The schema declares the
`deductions.bill_id` foreign key without `ON DELETE CASCADE` (and SQLite
foreign-key enforcement is off by default), so only the addressed table
changes. -/
def deleteRecord (st : DBState) (t : TableName) (rid : Nat) : Bool × DBState :=
  match t with
  | .bills =>
    let remaining := st.bills.filter (fun r => r.id != rid)
    (decide (remaining.length < st.bills.length), { st with bills := remaining })
  | .deductions =>
    let remaining := st.deductions.filter (fun r => r.id != rid)
    (decide (remaining.length < st.deductions.length), { st with deductions := remaining })
  | .emd_refunds =>
    let remaining := st.emd_refunds.filter (fun r => r.id != rid)
    (decide (remaining.length < st.emd_refunds.length), { st with emd_refunds := remaining })
  | .projects =>
    let remaining := st.projects.filter (fun r => r.id != rid)
    (decide (remaining.length < st.projects.length), { st with projects := remaining })

/-- The `WHERE bill_number LIKE ? OR contractor_name LIKE ? OR project_name
LIKE ?` row predicate of `search_records` for the `bills` table. -/
def billRowMatches (term : String) (r : BillRow) : Bool :=
  columnLike term (some r.bill_number) ||
    columnLike term r.contractor_name ||
    columnLike term r.project_name

/-- `DatabaseManager.search_records` on the `bills` table with its default
search columns `['bill_number', 'contractor_name', 'project_name']`. -/
def searchBills (st : DBState) (term : String) : List BillRow :=
  (st.bills.filter (billRowMatches term)).mergeSort newestFirstBill

/-! ## Excel import (`utils/excel_handler.py`) -/

/-- A tabular cell: missing (`NaN`), numeric, or text.  The datetime re-typing
performed by `pd.to_datetime(..., errors='coerce')` is abstracted as the
identity on these values, and `pd.to_numeric(..., errors='coerce')` keeps
numbers and coerces everything else to missing. -/
inductive Cell
  | null
  | num (q : ℚ)
  | str (s : String)
deriving DecidableEq

/-- An uploaded tabular file: a header row and data rows aligned with it. -/
structure DataFrame where
  columns : List String
  rows : List (List Cell)
deriving DecidableEq

/-- `df.columns.str.lower().str.replace(' ', '_')` applied to one header. -/
def normalizeColumn (s : String) : String :=
  String.mk (s.data.map (fun c => if c = ' ' then '_' else foldChar c))

/-- The `expected_columns` list of `ExcelHandler.process_emd_excel`. -/
def emdExpectedColumns : List String :=
  ["tender_number", "contractor_name", "emd_amount", "deposit_date", "status"]

/-- The `missing_columns` accumulation of `process_emd_excel`: expected names
absent from the normalized header row. -/
def missingEmdColumns (df : DataFrame) : List String :=
  emdExpectedColumns.filter (fun c => !((df.columns.map normalizeColumn).contains c))

/-- `pd.to_numeric(col, errors='coerce')` on one cell. -/
def toNumericCell : Cell → Cell
  | .num q => .num q
  | _ => .null

/-- `pd.to_datetime(col, errors='coerce')` on one cell: the datetime re-typing
is abstracted as the identity on the modelled cell values. -/
def toDatetimeCell (c : Cell) : Cell :=
  c

/-- Index of a column by exact name, as used by the cleaning steps of
`process_emd_excel` (which index the original, un-normalized headers). -/
def findColIdx (df : DataFrame) (name : String) : Option Nat :=
  df.columns.findIdx? (fun c => c == name)

/-- Map a per-cell conversion over one column of every row. -/
def mapColumn (df : DataFrame) (name : String) (f : Cell → Cell) : DataFrame :=
  match findColIdx df name with
  | none => df
  | some i => { df with rows := df.rows.map (fun r => r.set i (f (r.getD i .null))) }

/-- `processed_df.dropna(subset=[...])`: drop the rows with a missing value in
any subset column; raises `KeyError` when a subset column is absent. -/
def dropnaSubset (df : DataFrame) (subset : List String) : Except String DataFrame :=
  match subset.mapM (findColIdx df) with
  | none => .error "KeyError"
  | some idxs =>
    .ok { df with rows := df.rows.filter (fun r => idxs.all (fun i => r.getD i .null != .null)) }

/-- The cleaning half of `process_emd_excel`: date coercion (a guarded no-op
in this cell model), numeric coercion of `emd_amount`, then
`dropna(subset=['tender_number', 'emd_amount'])`. -/
def cleanEmdData (df : DataFrame) : Except String DataFrame :=
  let df1 :=
    if df.columns.contains "deposit_date" then mapColumn df "deposit_date" toDatetimeCell
    else df
  let df2 :=
    if df1.columns.contains "emd_amount" then mapColumn df1 "emd_amount" toNumericCell
    else df1
  dropnaSubset df2 ["tender_number", "emd_amount"]

/-- `ExcelHandler.process_emd_excel`: validate the (normalized) header row
against `expected_columns`; on failure return
`(None, "Missing columns: ...")`; otherwise clean the data, with any raised
exception caught and reported as an error string. -/
def processEmdExcel (df : DataFrame) : Option DataFrame × Option String :=
  let missing := missingEmdColumns df
  if missing.isEmpty then
    match cleanEmdData df with
    | .ok out => (some out, none)
    | .error e => (none, some ("Error processing EMD Excel file: " ++ e))
  else
    (none, some ("Missing columns: " ++ String.intercalate ", " missing))

/-! ## Document exporters (`utils/excel_handler.py`, `utils/pdf_generator.py`) -/

/-- The outcome of the workbook exporter. -/
inductive ExcelOutput
  | basicWorkbook (sheets : List (String × DataFrame))
  | formattedWorkbook (title : String) (data : DataFrame)
deriving DecidableEq

/-- The message of the `ImportError` pandas raises when `pd.ExcelWriter` is
asked for the `openpyxl` engine and that library is not installed. -/
def openpyxlMissingMsg : String :=
  "ImportError: Missing optional dependency openpyxl"

/-- `ExcelHandler.write_excel_file` on a single sheet: it constructs
`pd.ExcelWriter(..., engine='openpyxl')`, which raises `ImportError` when
openpyxl is not installed, and otherwise produces a plain, unformatted
workbook.  The flag records whether openpyxl is importable. -/
def writeExcelFile (openpyxlInstalled : Bool) (data : DataFrame) :
    Except String ExcelOutput :=
  if openpyxlInstalled then .ok (.basicWorkbook [("Sheet1", data)])
  else .error openpyxlMissingMsg

/-- `ExcelHandler.create_formatted_excel`: when `OPENPYXL_AVAILABLE` is false
it falls back to `write_excel_file` — whose writer requires the very same
absent library, so the fallback branch itself raises `ImportError`; with
openpyxl installed it renders the formatted workbook. -/
def createFormattedExcel (openpyxlAvailable : Bool) (data : DataFrame)
    (title : String) : Except String ExcelOutput :=
  if openpyxlAvailable then .ok (.formattedWorkbook title data)
  else writeExcelFile openpyxlAvailable data

/-- The two shapes of object `get_pdf_generator` can return. -/
inductive PdfGeneratorKind
  | real
  | fallback
deriving DecidableEq

/-- `get_pdf_generator`: a working `PDFGenerator` when ReportLab imports, a
`PDFGeneratorFallback` object otherwise — the factory itself never raises. -/
def getPdfGenerator (reportlabAvailable : Bool) : PdfGeneratorKind :=
  if reportlabAvailable then .real else .fallback

/-- The message of the `NotImplementedError` raised by every render method of
`PDFGeneratorFallback`. -/
def reportlabMissingMsg : String :=
  "NotImplementedError: PDF generation requires ReportLab. Install with: pip install reportlab"

/-- `PDFGeneratorFallback.create_bill_pdf`: unconditionally raises. -/
def fallbackCreateBillPdf (_bill_data : BillInput) : Except String (List String) :=
  .error reportlabMissingMsg

/-- `PDFGeneratorFallback.create_emd_refund_pdf`: unconditionally raises. -/
def fallbackCreateEmdRefundPdf (_emd_data : EmdInput) : Except String (List String) :=
  .error reportlabMissingMsg

/-- `PDFGeneratorFallback.create_project_report_pdf`: unconditionally
raises. -/
def fallbackCreateProjectReportPdf (_project_data : ProjectInput) : Except String (List String) :=
  .error reportlabMissingMsg

/-! ## Claim theorems: transactions and round trips -/

theorem insertDeductions_ok_spec (billId : Nat) :
    ∀ (ds : List DeductionInput) (st st' : DBState),
      insertDeductions billId ds st = .ok st' →
      st'.bills = st.bills ∧ st'.emd_refunds = st.emd_refunds ∧
        st'.projects = st.projects ∧
        ∃ rows : List DeductionRow,
          st'.deductions = st.deductions ++ rows ∧
          rows.length = ds.length ∧
          ∀ r ∈ rows, r.bill_id = billId := by
  intro ds
  induction ds with
  | nil =>
    intro st st' h
    simp only [insertDeductions] at h
    cases h
    exact ⟨rfl, rfl, rfl, [], by simp, rfl, by simp⟩
  | cons d rest ih =>
    intro st st' h
    cases hd : d.dtype with
    | none => simp [insertDeductions, hd] at h
    | some t =>
      cases ha : d.amount with
      | none => simp [insertDeductions, hd, ha] at h
      | some a =>
        simp only [insertDeductions, hd, ha] at h
        obtain ⟨h1, h2, h3, rows, hrows, hlen, hbid⟩ := ih _ _ h
        refine ⟨h1, h2, h3,
          { id := st.nextDeductionId, bill_id := billId, deduction_type := t
            amount := a, rate := d.rate.getD 0
            is_statutory := d.statutory.getD false
            created_at := st.clock } :: rows, ?_, by simp [hlen], ?_⟩
        · rw [hrows]
          simp
        · intro r hr
          rcases List.mem_cons.mp hr with hr | hr
          · rw [hr]
          · exact hbid r hr

/-- C10: `save_bill` persists the bill row and all of its deduction rows in
one transaction — on any error (missing `bill_number`, or a `KeyError` while
binding a deduction) the `with` context manager rolls the store back to the
entry state, and on success the committed state holds exactly the new bill
row plus one deduction row per input deduction, all referencing the fresh
bill id. -/
theorem save_bill_transactional :
    ∀ (st : DBState) (b : BillInput),
      (∀ e : String, (saveBill st b).1 = .error e → (saveBill st b).2 = st) ∧
      (∀ billId : Nat, (saveBill st b).1 = .ok billId →
        billId = st.nextBillId ∧
        ∃ row : BillRow, row.id = billId ∧
          (saveBill st b).2.bills = st.bills ++ [row] ∧
          ∃ rows : List DeductionRow,
            (saveBill st b).2.deductions = st.deductions ++ rows ∧
            rows.length = (b.deductions.getD []).length ∧
            ∀ r ∈ rows, r.bill_id = billId) := by
  intro st b
  cases hbn : b.bill_number with
  | none =>
    refine ⟨fun e _ => by simp [saveBill, hbn], fun billId hok => ?_⟩
    simp [saveBill, hbn] at hok
  | some bn =>
    cases hins : insertDeductions st.nextBillId (b.deductions.getD []) (billInsertState st b bn) with
    | error e =>
      refine ⟨fun e' _ => by simp [saveBill, hbn, hins], fun billId hok => ?_⟩
      simp [saveBill, hbn, hins] at hok
    | ok st2 =>
      refine ⟨fun e' he' => ?_, fun billId hok => ?_⟩
      · simp [saveBill, hbn, hins] at he'
      · obtain ⟨h1, _, _, rows, hrows, hlen, hbid⟩ :=
          insertDeductions_ok_spec st.nextBillId _ _ _ hins
        have hid : billId = st.nextBillId := by
          simp [saveBill, hbn, hins] at hok
          exact hok.symm
        refine ⟨hid, billInsertRow st b bn, by rw [hid, billInsertRow], ?_, rows, ?_, hlen, ?_⟩
        · show (saveBill st b).2.bills = _
          simp only [saveBill, hbn, hins]
          rw [h1]
          rfl
        · show (saveBill st b).2.deductions = _
          simp only [saveBill, hbn, hins]
          rw [hrows]
          rfl
        · intro r hr
          rw [hid]
          exact hbid r hr

/-- A representative `bill_data` dict: all fields supplied, one deduction. -/
def sampleBillInput : BillInput :=
  { bill_number := some "B001/2024", bill_date := some "2024-01-15"
    contractor_name := some "ABC Construction"
    project_name := some "Road Construction Project"
    bill_amount := some 500000, status := some "Active"
    deductions := some
      [ { dtype := some "Income Tax", amount := some 5000
          rate := some 1, statutory := some true } ] }

/-- A `bill_data` dict whose deduction lacks the mandatory `'type'` key. -/
def badDeductionBillInput : BillInput :=
  { bill_number := some "B002/2024", bill_date := none
    contractor_name := none, project_name := none
    bill_amount := some 1000, status := none
    deductions := some
      [ { dtype := none, amount := some 5, rate := none, statutory := none } ] }

/-- C10 witness: a failing save (deduction without a `'type'` key) leaves the
fresh database unchanged, and a successful save commits the bill row plus its
deduction rows. -/
theorem save_bill_transactional_witness :
    (saveBill emptyDB badDeductionBillInput).2 = emptyDB ∧
    (1 = emptyDB.nextBillId ∧
      ∃ row : BillRow, row.id = 1 ∧
        (saveBill emptyDB sampleBillInput).2.bills = emptyDB.bills ++ [row] ∧
        ∃ rows : List DeductionRow,
          (saveBill emptyDB sampleBillInput).2.deductions = emptyDB.deductions ++ rows ∧
          rows.length = (sampleBillInput.deductions.getD []).length ∧
          ∀ r ∈ rows, r.bill_id = 1) :=
  ⟨(save_bill_transactional emptyDB badDeductionBillInput).1 "KeyError: type" rfl,
    (save_bill_transactional emptyDB sampleBillInput).2 1 rfl⟩

/-- C3: a record saved through `save_bill` / `save_emd_refund` /
`save_project` and then retrieved by the corresponding list operation
reappears with field values identical to those saved — the generated id and
creation timestamp aside (an absent `status` key is stored with the
documented default of the save operation). -/
theorem save_then_list_round_trip :
    (∀ (st : DBState) (b : BillInput) (billId : Nat),
      (saveBill st b).1 = .ok billId →
      ∃ row : BillRow,
        row ∈ getBills (saveBill st b).2 none ∧
        some row.bill_number = b.bill_number ∧
        row.bill_date = b.bill_date ∧
        row.contractor_name = b.contractor_name ∧
        row.project_name = b.project_name ∧
        row.bill_amount = b.bill_amount ∧
        row.status = b.status.getD "Active") ∧
    (∀ (st : DBState) (e : EmdInput) (rid : Nat),
      (saveEmdRefund st e).1 = .ok rid →
      ∃ row : EmdRow,
        row ∈ getEmdRefunds (saveEmdRefund st e).2 none ∧
        some row.tender_number = e.tender_number ∧
        row.contractor_name = e.contractor_name ∧
        row.emd_amount = e.emd_amount ∧
        row.deposit_date = e.deposit_date ∧
        row.refund_date = e.refund_date ∧
        row.interest_rate = e.interest_rate ∧
        row.refund_amount = e.refund_amount ∧
        row.status = e.status.getD "Processed") ∧
    (∀ (st : DBState) (p : ProjectInput) (rid : Nat),
      (saveProject st p).1 = .ok rid →
      ∃ row : ProjectRow,
        row ∈ getProjects (saveProject st p).2 none ∧
        some row.project_name = p.project_name ∧
        row.project_code = p.project_code ∧
        row.contractor_name = p.contractor_name ∧
        row.agreement_amount = p.agreement_amount ∧
        row.start_date = p.start_date ∧
        row.completion_date = p.completion_date ∧
        row.status = p.status.getD "Active") := by
  refine ⟨?_, ?_, ?_⟩
  · intro st b billId hok
    cases hbn : b.bill_number with
    | none => simp [saveBill, hbn] at hok
    | some bn =>
      cases hins : insertDeductions st.nextBillId (b.deductions.getD [])
          (billInsertState st b bn) with
      | error e => simp [saveBill, hbn, hins] at hok
      | ok st2 =>
        obtain ⟨h1, _, _, _⟩ := insertDeductions_ok_spec st.nextBillId _ _ _ hins
        refine ⟨billInsertRow st b bn, ?_, rfl, rfl, rfl, rfl, rfl, rfl⟩
        show _ ∈ getBills (saveBill st b).2 none
        simp only [saveBill, hbn, hins, getBills, List.mem_mergeSort]
        rw [h1]
        simp [billInsertState]
  · intro st e rid hok
    cases htn : e.tender_number with
    | none => simp [saveEmdRefund, htn] at hok
    | some tn =>
      refine ⟨{ id := st.nextEmdId, tender_number := tn
                contractor_name := e.contractor_name, emd_amount := e.emd_amount
                deposit_date := e.deposit_date, refund_date := e.refund_date
                interest_rate := e.interest_rate, refund_amount := e.refund_amount
                status := e.status.getD "Processed", created_at := st.clock },
        ?_, rfl, rfl, rfl, rfl, rfl, rfl, rfl, rfl⟩
      simp only [saveEmdRefund, htn, getEmdRefunds, List.mem_mergeSort]
      simp
  · intro st p rid hok
    cases hpn : p.project_name with
    | none => simp [saveProject, hpn] at hok
    | some pn =>
      refine ⟨{ id := st.nextProjectId, project_name := pn
                project_code := p.project_code, contractor_name := p.contractor_name
                agreement_amount := p.agreement_amount, start_date := p.start_date
                completion_date := p.completion_date
                status := p.status.getD "Active", created_at := st.clock },
        ?_, rfl, rfl, rfl, rfl, rfl, rfl, rfl⟩
      simp only [saveProject, hpn, getProjects, List.mem_mergeSort]
      simp

/-- A representative `emd_data` dict with all fields supplied. -/
def sampleEmdInput : EmdInput :=
  { tender_number := some "T001/2024", contractor_name := some "XYZ Builders"
    emd_amount := some 50000, deposit_date := some "2024-01-10"
    refund_date := some "2024-02-10", interest_rate := some 6
    refund_amount := some 50500, status := some "Processed" }

/-- C3 witness: the round trip instantiated on a fresh database for a bill
(with one deduction) and an EMD refund. -/
theorem save_then_list_round_trip_witness :
    (∃ row : BillRow,
      row ∈ getBills (saveBill emptyDB sampleBillInput).2 none ∧
      some row.bill_number = sampleBillInput.bill_number ∧
      row.bill_date = sampleBillInput.bill_date ∧
      row.contractor_name = sampleBillInput.contractor_name ∧
      row.project_name = sampleBillInput.project_name ∧
      row.bill_amount = sampleBillInput.bill_amount ∧
      row.status = sampleBillInput.status.getD "Active") ∧
    (∃ row : EmdRow,
      row ∈ getEmdRefunds (saveEmdRefund emptyDB sampleEmdInput).2 none ∧
      some row.tender_number = sampleEmdInput.tender_number ∧
      row.contractor_name = sampleEmdInput.contractor_name ∧
      row.emd_amount = sampleEmdInput.emd_amount ∧
      row.deposit_date = sampleEmdInput.deposit_date ∧
      row.refund_date = sampleEmdInput.refund_date ∧
      row.interest_rate = sampleEmdInput.interest_rate ∧
      row.refund_amount = sampleEmdInput.refund_amount ∧
      row.status = sampleEmdInput.status.getD "Processed") :=
  ⟨save_then_list_round_trip.1 emptyDB sampleBillInput 1 rfl,
    save_then_list_round_trip.2.1 emptyDB sampleEmdInput 1 rfl⟩

/-! ## Claim theorems: validation-free inserts and delete frame -/

/-- The `bill_data` dict that supplies no fields at all. -/
def emptyBillInput : BillInput :=
  { bill_number := none, bill_date := none, contractor_name := none
    project_name := none, bill_amount := none, status := none
    deductions := none }

/-- C5 counterexample: `save_bill` with an empty record does NOT insert and
does NOT return a fresh id — the schema's `NOT NULL` constraint on
`bills.bill_number` rejects it and the database is left unchanged. -/
theorem save_empty_record_rejected :
    (saveBill emptyDB emptyBillInput).1 =
      .error "IntegrityError: NOT NULL constraint failed: bills.bill_number" ∧
    (saveBill emptyDB emptyBillInput).2 = emptyDB :=
  ⟨rfl, rfl⟩

/-- C5 corrected: there is indeed no validation layer — a record supplying
only `bill_number` inserts successfully, storing nulls for every other
missing field (with `status` defaulting to `'Active'`) and returning a fresh
id — but a record that supplies none of its fields is rejected by the
`bills.bill_number NOT NULL` constraint instead of inserting. -/
theorem save_bill_no_validation :
    (∀ (st : DBState) (bn : String),
      (saveBill st (BillInput.mk (some bn) none none none none none none)).1 =
        .ok st.nextBillId ∧
      (saveBill st (BillInput.mk (some bn) none none none none none none)).2.bills =
        st.bills ++ [BillRow.mk st.nextBillId bn none none none none "Active" st.clock]) ∧
    (∀ (st : DBState) (b : BillInput), b.bill_number = none →
      (saveBill st b).1 =
        .error "IntegrityError: NOT NULL constraint failed: bills.bill_number" ∧
      (saveBill st b).2 = st) := by
  constructor
  · intro st bn
    exact ⟨rfl, rfl⟩
  · intro st b hb
    simp [saveBill, hb]

/-- C5 witness: the corrected statement instantiated on a fresh database,
including the rejection branch at a concrete field-less record. -/
theorem save_bill_no_validation_witness :
    ((saveBill emptyDB (BillInput.mk (some "B003/2024") none none none none none none)).1 =
        .ok emptyDB.nextBillId ∧
      (saveBill emptyDB (BillInput.mk (some "B003/2024") none none none none none none)).2.bills =
        emptyDB.bills ++
          [BillRow.mk emptyDB.nextBillId "B003/2024" none none none none "Active" emptyDB.clock]) ∧
    ((saveBill emptyDB emptyBillInput).1 =
        .error "IntegrityError: NOT NULL constraint failed: bills.bill_number" ∧
      (saveBill emptyDB emptyBillInput).2 = emptyDB) :=
  ⟨save_bill_no_validation.1 emptyDB "B003/2024",
    save_bill_no_validation.2 emptyDB emptyBillInput rfl⟩

/-- C6: deleting a bill by id removes only the matching rows of the `bills`
table; every deduction row — including those whose `bill_id` references the
deleted bill — and every other table remain unchanged (no cascading
delete). -/
theorem delete_bill_frame :
    ∀ (st : DBState) (rid : Nat),
      (deleteRecord st .bills rid).2.deductions = st.deductions ∧
      (deleteRecord st .bills rid).2.emd_refunds = st.emd_refunds ∧
      (deleteRecord st .bills rid).2.projects = st.projects ∧
      (deleteRecord st .bills rid).2.bills = st.bills.filter (fun r => r.id != rid) ∧
      (∀ r : BillRow,
        r ∈ (deleteRecord st .bills rid).2.bills ↔ r ∈ st.bills ∧ r.id ≠ rid) := by
  intro st rid
  refine ⟨rfl, rfl, rfl, rfl, ?_⟩
  intro r
  simp [deleteRecord, List.mem_filter]

/-! ## Claim theorems: import validation and exporter fallback -/

/-- C7: when the uploaded file's columns (matched case- and
space-insensitively) lack required EMD import columns, `process_emd_excel`
returns the named validation failure listing exactly the missing columns,
paired with no processed data — a returned value, not a raised exception, and
no write of any kind. -/
theorem process_emd_missing_columns :
    ∀ df : DataFrame, missingEmdColumns df ≠ [] →
      processEmdExcel df =
        (none,
          some ("Missing columns: " ++ String.intercalate ", " (missingEmdColumns df))) := by
  intro df h
  rw [processEmdExcel]
  simp [List.isEmpty_iff, h]

/-- The header row of an upload missing the amount, date and status
columns. -/
def partialEmdUpload : DataFrame :=
  { columns := ["Tender Number", "Contractor Name"], rows := [] }

/-- C7 witness: the validation failure on a concrete upload whose header has
only `Tender Number` and `Contractor Name`. -/
theorem process_emd_missing_columns_witness :
    processEmdExcel partialEmdUpload =
      (none,
        some ("Missing columns: " ++
          String.intercalate ", " (missingEmdColumns partialEmdUpload))) :=
  process_emd_missing_columns partialEmdUpload (by decide)

/-- C8 counterexample: with the rendering dependency unavailable, neither
exporter render call returns a sentinel or fallback rendering — the
paginated-document fallback raises `NotImplementedError` (modelled as
`Except.error`), and the workbook exporter's unformatted-fallback branch
raises `ImportError`, because its writer requires the same absent library. -/
theorem pdf_fallback_raises :
    (fallbackCreateEmdRefundPdf sampleEmdInput).isOk = false ∧
    fallbackCreateEmdRefundPdf sampleEmdInput = .error reportlabMissingMsg ∧
    (fallbackCreateBillPdf sampleBillInput).isOk = false ∧
    (createFormattedExcel false partialEmdUpload "PWD Report").isOk = false ∧
    createFormattedExcel false partialEmdUpload "PWD Report" = .error openpyxlMissingMsg :=
  ⟨rfl, rfl, rfl, rfl, rfl⟩

/-- C8 corrected: when the rendering dependency is unavailable, no exporter
render call degrades to a rendering — `create_formatted_excel`'s unformatted
fallback itself raises `ImportError` (its `pd.ExcelWriter` requires the same
absent openpyxl), and every render call of the paginated-document fallback
raises `NotImplementedError`; only the factory degrades, returning the
fallback object instead of raising, and with the dependency installed both
workbook paths render. -/
theorem exporter_dependency_unavailable :
    (∀ (data : DataFrame) (title : String),
      createFormattedExcel false data title = .error openpyxlMissingMsg ∧
      writeExcelFile false data = .error openpyxlMissingMsg) ∧
    (∀ (data : DataFrame) (title : String),
      createFormattedExcel true data title = .ok (.formattedWorkbook title data) ∧
      writeExcelFile true data = .ok (.basicWorkbook [("Sheet1", data)])) ∧
    getPdfGenerator false = .fallback ∧
    getPdfGenerator true = .real ∧
    (∀ b : BillInput, fallbackCreateBillPdf b = .error reportlabMissingMsg) ∧
    (∀ e : EmdInput, fallbackCreateEmdRefundPdf e = .error reportlabMissingMsg) ∧
    (∀ p : ProjectInput, fallbackCreateProjectReportPdf p = .error reportlabMissingMsg) :=
  ⟨fun _ _ => ⟨rfl, rfl⟩, fun _ _ => ⟨rfl, rfl⟩, rfl, rfl,
    fun _ => rfl, fun _ => rfl, fun _ => rfl⟩

/-! ## Claim theorems: list ordering and limits -/

/-- A stored bill row whose contractor name is lower-case `abc`. -/
def sampleBillRow : BillRow :=
  { id := 1, bill_number := "B001/2024", bill_date := some "2024-01-15"
    contractor_name := some "abc Construction"
    project_name := some "Road Construction Project"
    bill_amount := some 500000, status := "Active", created_at := 0 }

/-- A database holding exactly one bill. -/
def oneBillDB : DBState :=
  { emptyDB with bills := [sampleBillRow], nextBillId := 2, clock := 1 }

/-- C9 counterexample: with one stored bill, `get_bills` with the supplied
limit `0` returns the whole table (Python's `if limit:` treats `0` like
`None`), so it does not return at most the first `0` records of the
ordering. -/
theorem get_bills_limit_zero :
    (getBills oneBillDB (some 0)).length = 1 ∧
    ¬ (getBills oneBillDB (some 0)).length ≤ 0 := by
  have h : (getBills oneBillDB (some 0)).length = 1 := by
    simp [getBills, oneBillDB, List.length_mergeSort]
  exact ⟨h, by omega⟩

theorem newestFirstBill_trans :
    ∀ a b c : BillRow,
      newestFirstBill a b = true → newestFirstBill b c = true →
      newestFirstBill a c = true := by
  intro a b c
  simp only [newestFirstBill, decide_eq_true_eq]
  omega

theorem newestFirstBill_total :
    ∀ a b : BillRow, (newestFirstBill a b || newestFirstBill b a) = true := by
  intro a b
  simp only [newestFirstBill, Bool.or_eq_true, decide_eq_true_eq]
  omega

theorem newestFirstEmd_trans :
    ∀ a b c : EmdRow,
      newestFirstEmd a b = true → newestFirstEmd b c = true →
      newestFirstEmd a c = true := by
  intro a b c
  simp only [newestFirstEmd, decide_eq_true_eq]
  omega

theorem newestFirstEmd_total :
    ∀ a b : EmdRow, (newestFirstEmd a b || newestFirstEmd b a) = true := by
  intro a b
  simp only [newestFirstEmd, Bool.or_eq_true, decide_eq_true_eq]
  omega

theorem newestFirstProject_trans :
    ∀ a b c : ProjectRow,
      newestFirstProject a b = true → newestFirstProject b c = true →
      newestFirstProject a c = true := by
  intro a b c
  simp only [newestFirstProject, decide_eq_true_eq]
  omega

theorem newestFirstProject_total :
    ∀ a b : ProjectRow,
      (newestFirstProject a b || newestFirstProject b a) = true := by
  intro a b
  simp only [newestFirstProject, Bool.or_eq_true, decide_eq_true_eq]
  omega

/-- C9 corrected: each list operation returns exactly the stored records,
ordered newest first by creation timestamp, and a POSITIVE supplied limit `n`
truncates the ordering to its first `n` records (at most `n` rows); a
supplied limit of `0` is instead treated like no limit, because `if limit:`
is false for `0`. -/
theorem list_newest_first :
    ∀ st : DBState,
      ((getBills st none).Pairwise (fun a b => b.created_at ≤ a.created_at) ∧
        (getBills st none).Perm st.bills) ∧
      ((getEmdRefunds st none).Pairwise (fun a b => b.created_at ≤ a.created_at) ∧
        (getEmdRefunds st none).Perm st.emd_refunds) ∧
      ((getProjects st none).Pairwise (fun a b => b.created_at ≤ a.created_at) ∧
        (getProjects st none).Perm st.projects) ∧
      (∀ n : Nat, 0 < n →
        getBills st (some n) = (getBills st none).take n ∧
        getEmdRefunds st (some n) = (getEmdRefunds st none).take n ∧
        getProjects st (some n) = (getProjects st none).take n ∧
        (getBills st (some n)).length ≤ n ∧
        (getEmdRefunds st (some n)).length ≤ n ∧
        (getProjects st (some n)).length ≤ n) := by
  intro st
  have hb : (getBills st none).Pairwise (fun a b => b.created_at ≤ a.created_at) := by
    have := List.sorted_mergeSort newestFirstBill_trans newestFirstBill_total st.bills
    exact this.imp (by simp [newestFirstBill])
  have he : (getEmdRefunds st none).Pairwise (fun a b => b.created_at ≤ a.created_at) := by
    have := List.sorted_mergeSort newestFirstEmd_trans newestFirstEmd_total st.emd_refunds
    exact this.imp (by simp [newestFirstEmd])
  have hp : (getProjects st none).Pairwise (fun a b => b.created_at ≤ a.created_at) := by
    have := List.sorted_mergeSort newestFirstProject_trans newestFirstProject_total st.projects
    exact this.imp (by simp [newestFirstProject])
  refine ⟨⟨hb, List.mergeSort_perm st.bills _⟩,
    ⟨he, List.mergeSort_perm st.emd_refunds _⟩,
    ⟨hp, List.mergeSort_perm st.projects _⟩, ?_⟩
  intro n hn
  have hzb : getBills st (some n) = (getBills st none).take n := by
    simp [getBills, Nat.pos_iff_ne_zero.mp hn]
  have hze : getEmdRefunds st (some n) = (getEmdRefunds st none).take n := by
    simp [getEmdRefunds, Nat.pos_iff_ne_zero.mp hn]
  have hzp : getProjects st (some n) = (getProjects st none).take n := by
    simp [getProjects, Nat.pos_iff_ne_zero.mp hn]
  refine ⟨hzb, hze, hzp, ?_, ?_, ?_⟩
  · rw [hzb]; exact List.length_take_le n _
  · rw [hze]; exact List.length_take_le n _
  · rw [hzp]; exact List.length_take_le n _

/-- C9 witness: the corrected statement instantiated on the one-bill database
with limit 1. -/
theorem list_newest_first_witness :
    getBills oneBillDB (some 1) = (getBills oneBillDB none).take 1 ∧
    getEmdRefunds oneBillDB (some 1) = (getEmdRefunds oneBillDB none).take 1 ∧
    getProjects oneBillDB (some 1) = (getProjects oneBillDB none).take 1 ∧
    (getBills oneBillDB (some 1)).length ≤ 1 ∧
    (getEmdRefunds oneBillDB (some 1)).length ≤ 1 ∧
    (getProjects oneBillDB (some 1)).length ≤ 1 :=
  (list_newest_first oneBillDB).2.2.2 1 (by decide)

/-! ## Claim theorems: search semantics -/

/-- The frozen claim's reading of the search predicate: some fixed search
column contains the term as a substring with its exact case. -/
def billRowMatchesCS (term : String) (r : BillRow) : Prop :=
  term.data <:+: r.bill_number.data ∨
    (∃ s, r.contractor_name = some s ∧ term.data <:+: s.data) ∨
    (∃ s, r.project_name = some s ∧ term.data <:+: s.data)

/-- The corrected reading of the search predicate: some fixed search column
contains the term as a substring up to ASCII case folding. -/
def billRowMatchesCI (term : String) (r : BillRow) : Prop :=
  term.data.map foldChar <:+: r.bill_number.data.map foldChar ∨
    (∃ s, r.contractor_name = some s ∧
      term.data.map foldChar <:+: s.data.map foldChar) ∨
    (∃ s, r.project_name = some s ∧
      term.data.map foldChar <:+: s.data.map foldChar)

theorem columnLike_iff (term : String) (h : noWildcards term) (v : Option String) :
    columnLike term v = true ↔
      ∃ s, v = some s ∧ term.data.map foldChar <:+: s.data.map foldChar := by
  cases v with
  | none => simp [columnLike]
  | some s =>
    rw [columnLike, likePattern, likeMatch_full term.data h s.data]
    simp

theorem billRowMatches_iff (term : String) (h : noWildcards term) (r : BillRow) :
    billRowMatches term r = true ↔ billRowMatchesCI term r := by
  rw [billRowMatches, billRowMatchesCI]
  simp [Bool.or_eq_true, columnLike_iff term h]
  exact or_assoc

/-- C4 counterexample: the stored bill whose contractor name is
`"abc Construction"` IS returned when searching bills for `"ABC"`, although
no search column contains `"ABC"` with that exact case — the substring match
of `search_records` is case-insensitive, not case-sensitive. -/
theorem search_case_sensitivity_refuted :
    sampleBillRow ∈ searchBills oneBillDB "ABC" ∧
    ¬ billRowMatchesCS "ABC" sampleBillRow := by
  constructor
  · rw [searchBills, List.mem_mergeSort, List.mem_filter]
    exact ⟨by simp [oneBillDB], by decide⟩
  · simp only [billRowMatchesCS, sampleBillRow, Option.some.injEq, exists_eq_left']
    decide

/-- C4 corrected: for every stored bills table and wildcard-free search term,
search over bills returns exactly the rows in which at least one of the fixed
search columns (`bill_number`, `contractor_name`, `project_name`) contains
the term as a substring, where the match is case-INsensitive for ASCII
letters (SQLite's default `LIKE`). -/
theorem search_bills_substring_ci :
    ∀ (st : DBState) (term : String), noWildcards term →
      ∀ r : BillRow,
        r ∈ searchBills st term ↔ r ∈ st.bills ∧ billRowMatchesCI term r := by
  intro st term h r
  rw [searchBills, List.mem_mergeSort, List.mem_filter, billRowMatches_iff term h]

/-- C4 witness: the corrected search characterization instantiated at the
one-bill database and the wildcard-free term `"ABC"`. -/
theorem search_bills_substring_ci_witness :
    sampleBillRow ∈ searchBills oneBillDB "ABC" ↔
      sampleBillRow ∈ oneBillDB.bills ∧ billRowMatchesCI "ABC" sampleBillRow :=
  search_bills_substring_ci oneBillDB "ABC" (by unfold noWildcards; decide) sampleBillRow
